import Mathlib

/-!
Shallow embedding of the real-time notification channel of
`aws-cost-sentinel` (the `WebSocketClient` class and its message router).

The mutable instance fields of the class become a `ClientState` record;
every public method, private helper and transport callback becomes a pure
function `ClientState → ClientState × List Output`, where `Output` records
the caller-facing events the client emits and the frames it writes to the
wire.  Transport callbacks are modelled as external events tagged with the
generation number of the transport instance they come from: the class
attaches fresh handlers to every transport it creates and never detaches
the old ones, so an event from any previously created transport invokes
the corresponding handler body (which, as in the source, never inspects
the identity of the transport that fired it).

`Math.pow(1.5, k)` is embedded over `ℚ` as `(3 / 2) ^ k`; the backoff
delays the claims mention (5000, 7500, 11250, ...) are exact in both
double-precision floats and `ℚ`.
-/

namespace AwsCostSentinel

/-- `WebSocketFilters`: optional message-type and account-id lists. -/
structure WebSocketFilters where
  message_types : Option (List String)
  account_ids : Option (List String)
deriving DecidableEq, Repr

/-- `WebSocketMessage` envelope: a `type` discriminator, a timestamp, and
payload fields; of the payload only `server_time` is read by the client
(in the `ping` branch of `handleMessage`), so it is modelled explicitly
and the rest of the payload is left opaque. -/
structure WebSocketMessage where
  type : String
  timestamp : String
  server_time : Option String
deriving DecidableEq, Repr

/-- Outbound frames the client writes to the wire (`this.send(...)`). -/
inductive OutFrame where
  | ping (client_time : String)
  | pong (server_time : Option String)
  | subscribe (filters : WebSocketFilters)
deriving DecidableEq, Repr

/-- Caller-facing events the client emits (`this.emit(...)`). -/
inductive EmitEvent where
  | connected
  | disconnected (code : Nat)
  | reconnecting (attempt : Nat) (maxAttempts : Nat) (delay : ℚ)
  | reconnectFailed
  | errorNotConnected
  | errorParse
  | errorTransport
  | costUpdate (m : WebSocketMessage)
  | wasteDetected (m : WebSocketMessage)
  | recommendationReady (m : WebSocketMessage)
  | jobStatus (m : WebSocketMessage)
  | accountStatus (m : WebSocketMessage)
  | serverError (m : WebSocketMessage)
  | message (m : WebSocketMessage)
  | rawMessage (m : WebSocketMessage)
deriving DecidableEq, Repr

/-- One observable effect of a step: an emitted event, an outbound frame,
a request to open a fresh transport (the connect URL carries the token and
the serialized filters), or a close request on the owned transport. -/
inductive Output where
  | emit (e : EmitEvent)
  | frame (f : OutFrame)
  | openTransport (token : String) (filters : Option WebSocketFilters)
  | closeRequest (code : Nat)
deriving DecidableEq, Repr

/-- `ConnectionOptions` after the constructor applied its defaults
(`reconnectAttempts: 5`, `reconnectDelay: 5000`, overridden by whatever
the caller passed, including an explicit `0`). -/
structure ResolvedOptions where
  token : String
  reconnectAttempts : Nat
  reconnectDelay : ℚ
deriving DecidableEq, Repr

/-- The constructor merge `{ reconnectAttempts: 5, reconnectDelay: 5000,
...options }`: an explicitly supplied value wins over the default. -/
def mkOptions (token : String) (reconnectAttempts : Option Nat)
    (reconnectDelay : Option ℚ) : ResolvedOptions :=
  { token := token
    reconnectAttempts := reconnectAttempts.getD 5
    reconnectDelay := reconnectDelay.getD 5000 }

/-- The readyState of the owned transport. -/
inductive ReadyState where
  | connecting
  | opened
  | closing
  | closed
deriving DecidableEq, Repr

/-- The mutable instance fields of `WebSocketClient`.  `wsGen` is
`this.ws` as the generation number of the owned transport (`none` =
`null`); `wsReady` its readyState; `nextGen` counts transports created so
far (a callback tagged `g < nextGen` comes from a transport that had
handlers attached).  `pingInterval` / `reconnectTimeout` record whether a
live timer of that kind is pending; `filters` is `this.options.filters`,
which `updateFilters` mutates. -/
structure ClientState where
  wsGen : Option Nat
  wsReady : ReadyState
  nextGen : Nat
  reconnectCount : Nat
  pingInterval : Bool
  reconnectTimeout : Bool
  isConnecting : Bool
  shouldReconnect : Bool
  filters : Option WebSocketFilters
deriving DecidableEq, Repr

/-- Field initializers of the class (no transport, counters at zero,
`shouldReconnect = true`), with the constructor-supplied filters. -/
def initClient (filters : Option WebSocketFilters) : ClientState :=
  { wsGen := none
    wsReady := ReadyState.closed
    nextGen := 0
    reconnectCount := 0
    pingInterval := false
    reconnectTimeout := false
    isConnecting := false
    shouldReconnect := true
    filters := filters }

/-- `this.ws?.readyState === WebSocket.OPEN`. -/
def wsIsOpen (s : ClientState) : Prop :=
  s.wsGen.isSome = true ∧ s.wsReady = ReadyState.opened

instance (s : ClientState) : Decidable (wsIsOpen s) := by
  unfold wsIsOpen; infer_instance

/-- `send(message)`: writes the frame when the transport reports itself
open, otherwise emits a not-connected error. -/
def sendAction (s : ClientState) (f : OutFrame) : List Output :=
  if wsIsOpen s then [Output.frame f] else [Output.emit EmitEvent.errorNotConnected]

/-- `handleMessage(message)`: the switch over `message.type`, followed
unconditionally by the `rawMessage` emission.  In the `ping` branch the
client answers through `send`, whose behaviour depends on whether the
owned transport is open (`sendOk`). -/
def handleMessage (sendOk : Bool) (m : WebSocketMessage) : List Output :=
  (if m.type = "ping" then
    (if sendOk then [Output.frame (OutFrame.pong m.server_time)]
     else [Output.emit EmitEvent.errorNotConnected])
  else if m.type = "pong" then []
  else if m.type = "cost_update" then [Output.emit (EmitEvent.costUpdate m)]
  else if m.type = "waste_detected" then [Output.emit (EmitEvent.wasteDetected m)]
  else if m.type = "recommendation_ready" then [Output.emit (EmitEvent.recommendationReady m)]
  else if m.type = "job_status" then [Output.emit (EmitEvent.jobStatus m)]
  else if m.type = "account_status" then [Output.emit (EmitEvent.accountStatus m)]
  else if m.type = "error" then [Output.emit (EmitEvent.serverError m)]
  else [Output.emit (EmitEvent.message m)])
  ++ [Output.emit (EmitEvent.rawMessage m)]

/-- `cleanup()`: clear both timer handles. -/
def cleanup (s : ClientState) : ClientState :=
  { s with pingInterval := false, reconnectTimeout := false }

/-- `scheduleReconnect()`: bail out (emitting `reconnectFailed`) when
`!this.shouldReconnect || (this.options.reconnectAttempts &&
this.reconnectCount >= this.options.reconnectAttempts)` — note the
truthiness of the first conjunct: an explicit `reconnectAttempts` of `0`
disables the cap.  Otherwise increment the counter, compute
`reconnectDelay * 1.5 ^ (reconnectCount - 1)`, emit `reconnecting` and
arm the reconnect timer. -/
def scheduleReconnect (o : ResolvedOptions) (s : ClientState) :
    ClientState × List Output :=
  if ¬ s.shouldReconnect = true ∨
      (o.reconnectAttempts ≠ 0 ∧ s.reconnectCount ≥ o.reconnectAttempts) then
    (s, [Output.emit EmitEvent.reconnectFailed])
  else
    let c := s.reconnectCount + 1
    let delay := o.reconnectDelay * (3 / 2 : ℚ) ^ (c - 1)
    ({ s with reconnectCount := c, reconnectTimeout := true },
     [Output.emit (EmitEvent.reconnecting c o.reconnectAttempts delay)])

/-- `connect()`: no-op when already open or connecting; otherwise create a
fresh transport (readyState CONNECTING) whose URL carries the token and
the currently stored filters, and attach handlers to it.  The
`new WebSocket` constructor is assumed not to throw (its catch branch is
a URL-syntax failure, unreachable for the URLs the client builds). -/
def connectAction (o : ResolvedOptions) (s : ClientState) :
    ClientState × List Output :=
  if wsIsOpen s ∨ s.isConnecting = true then (s, [])
  else
    ({ s with isConnecting := true
              wsGen := some s.nextGen
              wsReady := ReadyState.connecting
              nextGen := s.nextGen + 1 },
     [Output.openTransport o.token s.filters])

/-- `disconnect()`: set `shouldReconnect := false`, run `cleanup()`, and
when a transport is owned request its closure with code 1000 (a close on
an already CLOSED transport is a transport-level no-op). -/
def disconnectAction (s : ClientState) : ClientState × List Output :=
  let s1 := cleanup { s with shouldReconnect := false }
  match s1.wsGen with
  | none => (s1, [])
  | some _ =>
    ({ s1 with wsReady :=
        if s1.wsReady = ReadyState.closed then ReadyState.closed
        else ReadyState.closing },
     [Output.closeRequest 1000])

/-- `updateFilters(filters)`: replace the stored filter set in full, then
call `send({ type: 'subscribe', filters })`. -/
def updateFiltersAction (s : ClientState) (f : WebSocketFilters) :
    ClientState × List Output :=
  let s1 := { s with filters := some f }
  (s1, sendAction s1 (OutFrame.subscribe f))

/-- The `onopen` handler body: clear `isConnecting`, reset the retry
counter, emit `connected`, start the heartbeat interval.  The body never
checks which transport fired it; only the transport-level readyState
update is tied to the current generation. -/
def onOpen (s : ClientState) (g : Nat) : ClientState × List Output :=
  let s1 := if s.wsGen = some g then { s with wsReady := ReadyState.opened } else s
  ({ s1 with isConnecting := false, reconnectCount := 0, pingInterval := true },
   [Output.emit EmitEvent.connected])

/-- The `onclose` handler body: clear `isConnecting`, run `cleanup()`,
emit `disconnected`, and on an abnormal close code (≠ 1000) call
`scheduleReconnect()` when `shouldReconnect` is still set.  Like the
source handler it never checks which transport fired it. -/
def onClose (o : ResolvedOptions) (s : ClientState) (g : Nat) (code : Nat) :
    ClientState × List Output :=
  let s1 := if s.wsGen = some g then { s with wsReady := ReadyState.closed } else s
  let s2 := cleanup { s1 with isConnecting := false }
  if code ≠ 1000 then
    if s2.shouldReconnect = true then
      let r := scheduleReconnect o s2
      (r.1, Output.emit (EmitEvent.disconnected code) :: r.2)
    else
      (s2, [Output.emit (EmitEvent.disconnected code)])
  else
    (s2, [Output.emit (EmitEvent.disconnected code)])

/-- The `onerror` handler body. -/
def onError (s : ClientState) (_g : Nat) : ClientState × List Output :=
  ({ s with isConnecting := false }, [Output.emit EmitEvent.errorTransport])

/-- The `onmessage` handler body: `raw = none` models a frame
`JSON.parse` rejects (the catch branch emits a parse error); a parsed
envelope goes to `handleMessage`, whose `send` consults the readyState of
the transport the client currently owns. -/
def onMessage (s : ClientState) (_g : Nat) (raw : Option WebSocketMessage) :
    ClientState × List Output :=
  match raw with
  | none => (s, [Output.emit EmitEvent.errorParse])
  | some m => (s, handleMessage (decide (wsIsOpen s)) m)

/-- The reconnect timer firing: only a live (un-cancelled) timer fires,
and its callback is `this.connect()`. -/
def onReconnectTimer (o : ResolvedOptions) (s : ClientState) :
    ClientState × List Output :=
  if s.reconnectTimeout = true then
    connectAction o { s with reconnectTimeout := false }
  else (s, [])

/-- A heartbeat interval tick: only a live interval ticks, and it sends a
ping only while the owned transport reports itself open. -/
def onPingTimer (s : ClientState) (t : String) : ClientState × List Output :=
  if s.pingInterval = true then
    if wsIsOpen s then (s, sendAction s (OutFrame.ping t)) else (s, [])
  else (s, [])

/-- External stimuli: the public API calls, callbacks from transport
generation `g`, and the two timers. -/
inductive Ev where
  | connect
  | disconnect
  | updateFilters (f : WebSocketFilters)
  | wsOpen (g : Nat)
  | wsClose (g : Nat) (code : Nat)
  | wsError (g : Nat)
  | wsMessage (g : Nat) (raw : Option WebSocketMessage)
  | reconnectTimer
  | pingTimer (t : String)
deriving DecidableEq, Repr

/-- One event-loop turn.  A transport callback tagged `g` runs its handler
body iff transport `g` was ever created (`g < nextGen`): the class attaches
handlers to every transport it creates and never detaches them, and no
handler body checks the identity of the transport that fired it. -/
def step (o : ResolvedOptions) (s : ClientState) : Ev → ClientState × List Output
  | Ev.connect => connectAction o s
  | Ev.disconnect => disconnectAction s
  | Ev.updateFilters f => updateFiltersAction s f
  | Ev.wsOpen g => if g < s.nextGen then onOpen s g else (s, [])
  | Ev.wsClose g code => if g < s.nextGen then onClose o s g code else (s, [])
  | Ev.wsError g => if g < s.nextGen then onError s g else (s, [])
  | Ev.wsMessage g raw => if g < s.nextGen then onMessage s g raw else (s, [])
  | Ev.reconnectTimer => onReconnectTimer o s
  | Ev.pingTimer t => onPingTimer s t

/-- Run a sequence of event-loop turns, accumulating the outputs. -/
def run (o : ResolvedOptions) (s : ClientState) : List Ev → ClientState × List Output
  | [] => (s, [])
  | e :: es =>
    let r1 := step o s e
    let r2 := run o r1.1 es
    (r2.1, r1.2 ++ r2.2)

/-- The `connectionState` getter. -/
def connectionState (s : ClientState) : String :=
  match s.wsGen with
  | none => "disconnected"
  | some _ =>
    match s.wsReady with
    | ReadyState.connecting => "connecting"
    | ReadyState.opened => "connected"
    | ReadyState.closing => "closing"
    | ReadyState.closed => "disconnected"

/-- Options obtained from a constructor call that supplies only the token:
both defaults apply (5 attempts, 5000 ms base delay). -/
def defaultOptions : ResolvedOptions := mkOptions "tok" none none

example : defaultOptions.reconnectAttempts = 5 := by decide
example : (5000 : ℚ) * (3 / 2 : ℚ) ^ 2 = 11250 := by norm_num

/-- Does an output emit a `reconnecting` lifecycle event? -/
def Output.isReconnectingOut : Output → Bool
  | Output.emit (EmitEvent.reconnecting _ _ _) => true
  | _ => false

/-- Does an output emit the `reconnectFailed` (reconnect-exhausted) event? -/
def Output.isReconnectFailedOut : Output → Bool
  | Output.emit EmitEvent.reconnectFailed => true
  | _ => false

/-- Is an output an outbound wire frame? -/
def Output.isFrameOut : Output → Bool
  | Output.frame _ => true
  | _ => false

/-- Is an output an outbound `subscribe` frame? -/
def Output.isSubscribeOut : Output → Bool
  | Output.frame (OutFrame.subscribe _) => true
  | _ => false

/-- A concrete inbound ping envelope. -/
def pingMsg : WebSocketMessage :=
  { type := "ping", timestamp := "t0", server_time := some "s0" }

/-- A concrete inbound pong envelope. -/
def pongMsg : WebSocketMessage :=
  { type := "pong", timestamp := "t1", server_time := none }

/-- C1, counterexample: an inbound `ping` envelope is delivered to the
catch-all raw-message channel (the `rawMessage` emission at the end of
`handleMessage` is unconditional), so the claim that no caller-facing
channel is ever notified for ping/pong traffic is false. -/
theorem C1_counterexample :
    Output.emit (EmitEvent.rawMessage pingMsg) ∈ handleMessage true pingMsg := by
  decide

/-- C1, amended: ping/pong envelopes never reach the generic `message`
channel nor any type-specific channel, but every parsed envelope —
ping and pong included — is published on the catch-all `rawMessage`
channel; an inbound ping triggers exactly one outbound pong echoing the
received `server_time` (when the owned transport is open; otherwise the
send is replaced by a local not-connected error). -/
theorem C1_amended (m : WebSocketMessage) :
    (m.type = "ping" →
      handleMessage true m =
        [Output.frame (OutFrame.pong m.server_time),
         Output.emit (EmitEvent.rawMessage m)] ∧
      handleMessage false m =
        [Output.emit EmitEvent.errorNotConnected,
         Output.emit (EmitEvent.rawMessage m)]) ∧
    (m.type = "pong" → ∀ sendOk : Bool,
      handleMessage sendOk m = [Output.emit (EmitEvent.rawMessage m)]) := by
  constructor
  · intro h
    constructor <;> simp [handleMessage, h]
  · intro h sendOk
    simp [handleMessage, h]

/-- C1, witness: the amended theorem evaluated on concrete ping and pong
envelopes. -/
theorem C1_witness :
    handleMessage true pingMsg =
      [Output.frame (OutFrame.pong (some "s0")),
       Output.emit (EmitEvent.rawMessage pingMsg)] ∧
    handleMessage true pongMsg = [Output.emit (EmitEvent.rawMessage pongMsg)] :=
  ⟨((C1_amended pingMsg).1 rfl).1, (C1_amended pongMsg).2 rfl true⟩

/-- C7: every recognized non-control envelope is delivered to exactly its
dedicated channel followed by the catch-all `rawMessage` channel, in that
order in one synchronous pass, and never to the generic `message`
channel; an envelope of unrecognized type is delivered to the generic
`message` channel followed by the `rawMessage` channel. -/
theorem C7_dispatch (m : WebSocketMessage) (sendOk : Bool) :
    (m.type = "cost_update" →
      handleMessage sendOk m =
        [Output.emit (EmitEvent.costUpdate m), Output.emit (EmitEvent.rawMessage m)]) ∧
    (m.type = "waste_detected" →
      handleMessage sendOk m =
        [Output.emit (EmitEvent.wasteDetected m), Output.emit (EmitEvent.rawMessage m)]) ∧
    (m.type = "recommendation_ready" →
      handleMessage sendOk m =
        [Output.emit (EmitEvent.recommendationReady m), Output.emit (EmitEvent.rawMessage m)]) ∧
    (m.type = "job_status" →
      handleMessage sendOk m =
        [Output.emit (EmitEvent.jobStatus m), Output.emit (EmitEvent.rawMessage m)]) ∧
    (m.type = "account_status" →
      handleMessage sendOk m =
        [Output.emit (EmitEvent.accountStatus m), Output.emit (EmitEvent.rawMessage m)]) ∧
    (m.type = "error" →
      handleMessage sendOk m =
        [Output.emit (EmitEvent.serverError m), Output.emit (EmitEvent.rawMessage m)]) ∧
    (m.type ∉ (["ping", "pong", "cost_update", "waste_detected", "recommendation_ready",
        "job_status", "account_status", "error"] : List String) →
      handleMessage sendOk m =
        [Output.emit (EmitEvent.message m), Output.emit (EmitEvent.rawMessage m)]) := by
  refine ⟨?_, ?_, ?_, ?_, ?_, ?_, ?_⟩ <;> intro h
  · simp [handleMessage, h]
  · simp [handleMessage, h]
  · simp [handleMessage, h]
  · simp [handleMessage, h]
  · simp [handleMessage, h]
  · simp [handleMessage, h]
  · simp only [List.mem_cons, List.mem_singleton, not_or] at h
    obtain ⟨h1, h2, h3, h4, h5, h6, h7, h8⟩ := h
    simp [handleMessage, h1, h2, h3, h4, h5, h6, h7, h8]

/-- A concrete cost-update envelope. -/
def costMsg : WebSocketMessage :=
  { type := "cost_update", timestamp := "t2", server_time := none }

/-- A concrete envelope of unrecognized type. -/
def otherMsg : WebSocketMessage :=
  { type := "something_else", timestamp := "t3", server_time := none }

/-- C7, witness: the dispatch theorem evaluated on a concrete
`cost_update` envelope and a concrete unrecognized envelope. -/
theorem C7_witness :
    handleMessage true costMsg =
      [Output.emit (EmitEvent.costUpdate costMsg),
       Output.emit (EmitEvent.rawMessage costMsg)] ∧
    handleMessage true otherMsg =
      [Output.emit (EmitEvent.message otherMsg),
       Output.emit (EmitEvent.rawMessage otherMsg)] :=
  ⟨(C7_dispatch costMsg true).1 rfl,
   (C7_dispatch otherMsg true).2.2.2.2.2.2 (by decide)⟩

/-- C6: an inbound frame that fails to parse yields exactly one local
parse-error event and nothing else — no subscriber notification of any
kind, the client state (hence `connectionState`) unchanged — and the run
continues to process all subsequent events exactly as it would have
without the malformed frame. -/
theorem C6_parseFailure (o : ResolvedOptions) (s : ClientState) (g : Nat)
    (evs : List Ev) (hg : g < s.nextGen) :
    step o s (Ev.wsMessage g none) = (s, [Output.emit EmitEvent.errorParse]) ∧
    connectionState (step o s (Ev.wsMessage g none)).1 = connectionState s ∧
    run o s (Ev.wsMessage g none :: evs) =
      ((run o s evs).1, Output.emit EmitEvent.errorParse :: (run o s evs).2) := by
  refine ⟨?_, ?_, ?_⟩ <;> simp [run, step, onMessage, hg]

/-- C6, witness: the parse-failure theorem evaluated on a concrete state
owning transport 0, with one subsequent well-formed frame. -/
theorem C6_witness :
    step defaultOptions ((connectAction defaultOptions (initClient none)).1)
        (Ev.wsMessage 0 none) =
      ((connectAction defaultOptions (initClient none)).1,
       [Output.emit EmitEvent.errorParse]) :=
  (C6_parseFailure defaultOptions ((connectAction defaultOptions (initClient none)).1)
    0 [Ev.wsMessage 0 (some costMsg)] (by decide)).1

/-- A run with three consecutive abnormal closures: connect, open,
then three times (abnormal close, backoff timer fires). -/
def backoffTrace : List Ev :=
  [Ev.connect, Ev.wsOpen 0,
   Ev.wsClose 0 1006, Ev.reconnectTimer,
   Ev.wsClose 1 1006, Ev.reconnectTimer,
   Ev.wsClose 2 1006]

/-- C3: the backoff delay announced for the n-th consecutive reconnect
attempt (1 ≤ n ≤ maxReconnectAttempts, so the counter before the attempt
is n-1) equals `baseDelay * 1.5 ^ (n-1)`; with the default options the
successive delays of a concrete run are 5000, 7500, 11250. -/
theorem C3_backoff :
    (∀ (o : ResolvedOptions) (s : ClientState) (n : Nat),
      1 ≤ n → n ≤ o.reconnectAttempts → s.reconnectCount = n - 1 →
      s.shouldReconnect = true →
      (scheduleReconnect o s).2 =
        [Output.emit (EmitEvent.reconnecting n o.reconnectAttempts
          (o.reconnectDelay * (3 / 2 : ℚ) ^ (n - 1)))]) ∧
    (run defaultOptions (initClient none) backoffTrace).2.filter
        Output.isReconnectingOut =
      [Output.emit (EmitEvent.reconnecting 1 5 5000),
       Output.emit (EmitEvent.reconnecting 2 5 7500),
       Output.emit (EmitEvent.reconnecting 3 5 11250)] := by
  constructor
  · intro o s n h1 h2 hc hsr
    have hguard : ¬ (¬ s.shouldReconnect = true ∨
        (o.reconnectAttempts ≠ 0 ∧ s.reconnectCount ≥ o.reconnectAttempts)) := by
      push_neg
      refine ⟨hsr, fun _ => ?_⟩
      omega
    have hn : n - 1 + 1 = n := by omega
    unfold scheduleReconnect
    rw [if_neg hguard]
    simp [hc, hn]
  · simp +decide only [run, step, backoffTrace, connectAction, onOpen, onClose,
      onReconnectTimer, scheduleReconnect, cleanup, wsIsOpen, initClient,
      defaultOptions, mkOptions, onMessage]
    norm_num [Output.isReconnectingOut]

/-- C3, witness: the general backoff statement applied to the first
attempt from the freshly constructed client. -/
theorem C3_witness :
    (scheduleReconnect defaultOptions (initClient none)).2 =
      [Output.emit (EmitEvent.reconnecting 1 defaultOptions.reconnectAttempts
        (defaultOptions.reconnectDelay * (3 / 2 : ℚ) ^ (1 - 1)))] :=
  (C3_backoff).1 defaultOptions (initClient none) 1 (by decide) (by decide) rfl rfl

/-- Events that are neither an explicit `connect()` call nor a transport
open callback. -/
def Ev.notConnectNorOpen : Ev → Bool
  | Ev.connect => false
  | Ev.wsOpen _ => false
  | _ => true

/-- The message router never announces a reconnect attempt. -/
theorem handleMessage_no_reconnecting (b : Bool) (m : WebSocketMessage) :
    (handleMessage b m).countP Output.isReconnectingOut = 0 := by
  unfold handleMessage
  split_ifs <;> simp [Output.isReconnectingOut]

/-- `send` never announces a reconnect attempt. -/
theorem sendAction_no_reconnecting (s : ClientState) (f : OutFrame) :
    (sendAction s f).countP Output.isReconnectingOut = 0 := by
  unfold sendAction
  split_ifs <;> simp [Output.isReconnectingOut]

/-- `scheduleReconnect` on a spent retry budget: emits `reconnectFailed`
and leaves the state untouched. -/
theorem scheduleReconnect_spent (o : ResolvedOptions) (s : ClientState)
    (hatt : o.reconnectAttempts ≠ 0) (hc : s.reconnectCount ≥ o.reconnectAttempts) :
    scheduleReconnect o s = (s, [Output.emit EmitEvent.reconnectFailed]) := by
  unfold scheduleReconnect
  rw [if_pos (Or.inr ⟨hatt, hc⟩)]

/-- One step from a state whose retry budget is spent and whose reconnect
timer is idle: unless the event is an explicit `connect` or a transport
open, the budget stays spent, the timer stays idle, and no reconnect
attempt is announced. -/
theorem exhausted_step (o : ResolvedOptions) (s : ClientState) (e : Ev)
    (hatt : o.reconnectAttempts ≠ 0) (hc : s.reconnectCount ≥ o.reconnectAttempts)
    (ht : s.reconnectTimeout = false) (he : Ev.notConnectNorOpen e = true) :
    (step o s e).1.reconnectCount ≥ o.reconnectAttempts ∧
    (step o s e).1.reconnectTimeout = false ∧
    (step o s e).2.countP Output.isReconnectingOut = 0 := by
  cases e with
  | connect => simp [Ev.notConnectNorOpen] at he
  | wsOpen g => simp [Ev.notConnectNorOpen] at he
  | disconnect =>
      rcases hw : s.wsGen with _ | g <;>
        simp [step, disconnectAction, cleanup, hw, hc, Output.isReconnectingOut]
  | updateFilters f =>
      refine ⟨?_, ?_, ?_⟩ <;>
        simp [step, updateFiltersAction, hc, ht, sendAction_no_reconnecting]
  | wsError g =>
      by_cases hg : g < s.nextGen <;>
        simp [step, onError, hg, hc, ht, Output.isReconnectingOut]
  | wsMessage g raw =>
      by_cases hg : g < s.nextGen
      · cases raw with
        | none => simp [step, onMessage, hg, hc, ht, Output.isReconnectingOut]
        | some m =>
            simp [step, onMessage, hg, hc, ht, handleMessage_no_reconnecting]
      · simp [step, hg, hc, ht]
  | reconnectTimer => simp [step, onReconnectTimer, ht, hc]
  | pingTimer t =>
      refine ⟨?_, ?_, ?_⟩ <;>
        · simp only [step, onPingTimer]
          split_ifs <;> simp [hc, ht, sendAction_no_reconnecting]
  | wsClose g code =>
      by_cases hg : g < s.nextGen
      · by_cases hw : s.wsGen = some g
        all_goals by_cases hcode : code ≠ 1000
        all_goals by_cases hsr : s.shouldReconnect = true
        all_goals
          simp [step, onClose, cleanup, hg, hw, hcode, hsr, hc, ht,
            scheduleReconnect_spent o _ hatt, Output.isReconnectingOut]
      · simp [step, hg, hc, ht]

/-- Running any sequence of events none of which is an explicit `connect`
or a transport open, from a state whose retry budget is spent and whose
reconnect timer is idle: the budget stays spent, the timer stays idle, and
no reconnect attempt is ever announced. -/
theorem exhausted_run (o : ResolvedOptions) (s : ClientState) (evs : List Ev)
    (hatt : o.reconnectAttempts ≠ 0) (hc : s.reconnectCount ≥ o.reconnectAttempts)
    (ht : s.reconnectTimeout = false)
    (hevs : ∀ e ∈ evs, Ev.notConnectNorOpen e = true) :
    (run o s evs).1.reconnectCount ≥ o.reconnectAttempts ∧
    (run o s evs).1.reconnectTimeout = false ∧
    (run o s evs).2.countP Output.isReconnectingOut = 0 := by
  induction evs generalizing s with
  | nil => exact ⟨hc, ht, by simp [run]⟩
  | cons e es ih =>
      have he := hevs e (List.mem_cons_self e es)
      have hstep := exhausted_step o s e hatt hc ht he
      have ihh := ih (step o s e).1 hstep.1 hstep.2.1
        (fun x hx => hevs x (List.mem_cons_of_mem e hx))
      refine ⟨?_, ?_, ?_⟩ <;>
        simp [run, List.countP_append, hstep.2.2, ihh.1, ihh.2.1, ihh.2.2]

/-- A run with five consecutive abnormal closures after a successful
open (`maxReconnectAttempts = 5`). -/
def closureTrace5 : List Ev :=
  [Ev.connect, Ev.wsOpen 0,
   Ev.wsClose 0 1006, Ev.reconnectTimer,
   Ev.wsClose 1 1006, Ev.reconnectTimer,
   Ev.wsClose 2 1006, Ev.reconnectTimer,
   Ev.wsClose 3 1006, Ev.reconnectTimer,
   Ev.wsClose 4 1006]

/-- The same run extended to a sixth consecutive abnormal closure. -/
def closureTrace6 : List Ev :=
  closureTrace5 ++ [Ev.reconnectTimer, Ev.wsClose 5 1006]

/-- C4, counterexample: after exactly `maxReconnectAttempts` (five)
consecutive abnormal closures since the last successful open, the
channel has emitted no reconnect-exhausted signal at all — the fifth
closure still schedules a fifth reconnect attempt (five `reconnecting`
announcements), so the exhaustion signal of the claim does not appear at
that point. -/
theorem C4_counterexample :
    (run defaultOptions (initClient none) closureTrace5).2.countP
        Output.isReconnectFailedOut = 0 ∧
    (run defaultOptions (initClient none) closureTrace5).2.countP
        Output.isReconnectingOut = 5 := by
  decide

/-- C4, amended: the reconnect-exhausted signal is emitted on the
(maxReconnectAttempts + 1)-th consecutive abnormal closure, i.e. when the
last budgeted reconnect attempt itself fails; from a state whose budget
is spent and whose reconnect timer is idle, no further reconnect attempt
is ever announced nor a timer armed, as long as no explicit `connect()`
call and no successful transport open occurs; and every successful open
resets the consecutive-failure counter to zero. -/
theorem C4_amended :
    ((run defaultOptions (initClient none) closureTrace6).2.countP
        Output.isReconnectFailedOut = 1 ∧
     (run defaultOptions (initClient none) closureTrace6).2.countP
        Output.isReconnectingOut = 5 ∧
     (run defaultOptions (initClient none) closureTrace6).1.reconnectTimeout
        = false) ∧
    (∀ (o : ResolvedOptions) (s : ClientState) (evs : List Ev),
      o.reconnectAttempts ≠ 0 → s.reconnectCount ≥ o.reconnectAttempts →
      s.reconnectTimeout = false →
      (∀ e ∈ evs, Ev.notConnectNorOpen e = true) →
      (run o s evs).1.reconnectTimeout = false ∧
      (run o s evs).2.countP Output.isReconnectingOut = 0) ∧
    (∀ (s : ClientState) (g : Nat), (onOpen s g).1.reconnectCount = 0) := by
  refine ⟨by decide, ?_, ?_⟩
  · intro o s evs hatt hc ht hevs
    exact ⟨(exhausted_run o s evs hatt hc ht hevs).2.1,
           (exhausted_run o s evs hatt hc ht hevs).2.2⟩
  · intro s g
    simp [onOpen]

/-- C4, witness: the amended theorem applied to the concrete exhausted
state of `closureTrace6`, followed by one more abnormal closure and a
timer event. -/
theorem C4_witness :
    (run defaultOptions (run defaultOptions (initClient none) closureTrace6).1
        [Ev.wsClose 5 1006, Ev.reconnectTimer]).1.reconnectTimeout = false ∧
    (run defaultOptions (run defaultOptions (initClient none) closureTrace6).1
        [Ev.wsClose 5 1006, Ev.reconnectTimer]).2.countP
        Output.isReconnectingOut = 0 :=
  (C4_amended).2.1 defaultOptions
    (run defaultOptions (initClient none) closureTrace6).1
    [Ev.wsClose 5 1006, Ev.reconnectTimer]
    (by decide) (by decide) (by decide) (by decide)

/-- Bridge from the field-level no-connecting invariant to the
`connectionState` getter. -/
theorem connectionState_ne_connecting (s : ClientState)
    (h : s.wsGen = none ∨ s.wsReady ≠ ReadyState.connecting) :
    connectionState s ≠ "connecting" := by
  rcases hg : s.wsGen with _ | g
  · simp +decide [connectionState, hg]
  · rcases h with h | h
    · rw [hg] at h
      cases h
    · cases hr : s.wsReady
      · exact absurd hr h
      · simp +decide [connectionState, hg, hr]
      · simp +decide [connectionState, hg, hr]
      · simp +decide [connectionState, hg, hr]

/-- One step with the no-auto-reconnect flag set and no reconnect timer
pending: any event other than an explicit `connect` preserves both, and
preserves the fact that the owned transport is not in readyState
CONNECTING. -/
theorem noConnect_step (o : ResolvedOptions) (s : ClientState) (e : Ev)
    (h1 : s.shouldReconnect = false) (h2 : s.reconnectTimeout = false)
    (h3 : s.wsGen = none ∨ s.wsReady ≠ ReadyState.connecting)
    (he : e ≠ Ev.connect) :
    (step o s e).1.shouldReconnect = false ∧
    (step o s e).1.reconnectTimeout = false ∧
    ((step o s e).1.wsGen = none ∨
      (step o s e).1.wsReady ≠ ReadyState.connecting) := by
  cases e with
  | connect => exact absurd rfl he
  | disconnect =>
      rcases hw : s.wsGen with _ | g
      · simp [step, disconnectAction, cleanup, hw, h1, h3]
      · simp [step, disconnectAction, cleanup, hw, h1, h3]
        split_ifs <;> simp
  | updateFilters f =>
      refine ⟨?_, ?_, ?_⟩ <;> simp [step, updateFiltersAction, h1, h2, h3]
  | wsOpen g =>
      by_cases hg : g < s.nextGen
      · by_cases hw : s.wsGen = some g <;>
          simp [step, onOpen, hg, hw, h1, h2, h3]
      · simp [step, hg, h1, h2, h3]
  | wsClose g code =>
      by_cases hg : g < s.nextGen
      · by_cases hw : s.wsGen = some g
        all_goals by_cases hcode : code ≠ 1000
        all_goals
          simp [step, onClose, cleanup, hg, hw, hcode, h1, h3]
      · simp [step, hg, h1, h2, h3]
  | wsError g =>
      by_cases hg : g < s.nextGen <;>
        simp [step, onError, hg, h1, h2, h3]
  | wsMessage g raw =>
      by_cases hg : g < s.nextGen
      · cases raw with
        | none => simp [step, onMessage, hg, h1, h2, h3]
        | some m => simp [step, onMessage, hg, h1, h2, h3]
      · simp [step, hg, h1, h2, h3]
  | reconnectTimer => simp [step, onReconnectTimer, h2, h1, h3]
  | pingTimer t =>
      refine ⟨?_, ?_, ?_⟩ <;>
        · simp only [step, onPingTimer]
          split_ifs <;> simp [h1, h2, h3]

/-- Running any `connect`-free sequence from a state with the
no-auto-reconnect flag set, no pending reconnect timer, and no transport
in readyState CONNECTING preserves all three. -/
theorem noConnect_run (o : ResolvedOptions) (s : ClientState) (evs : List Ev)
    (h1 : s.shouldReconnect = false) (h2 : s.reconnectTimeout = false)
    (h3 : s.wsGen = none ∨ s.wsReady ≠ ReadyState.connecting)
    (hevs : Ev.connect ∉ evs) :
    (run o s evs).1.shouldReconnect = false ∧
    (run o s evs).1.reconnectTimeout = false ∧
    ((run o s evs).1.wsGen = none ∨
      (run o s evs).1.wsReady ≠ ReadyState.connecting) := by
  induction evs generalizing s with
  | nil => exact ⟨h1, h2, h3⟩
  | cons e es ih =>
      have he : e ≠ Ev.connect := fun hh => hevs (hh ▸ List.mem_cons_self e es)
      have hstep := noConnect_step o s e h1 h2 h3 he
      have ihh := ih (step o s e).1 hstep.1 hstep.2.1 hstep.2.2
        (fun hh => hevs (List.mem_cons_of_mem e hh))
      simpa [run] using ihh

/-- C5: `disconnect()` in one step clears the heartbeat timer handle,
clears any pending reconnect timer handle, sets the no-auto-reconnect
flag, and — whenever a transport is owned — requests transport closure
with the normal-closure code 1000; afterwards, for any sequence of
events that contains no explicit `connect()` call, the channel never
reaches the `connecting` state. -/
theorem C5_disconnect :
    (∀ s : ClientState,
      (disconnectAction s).1.pingInterval = false ∧
      (disconnectAction s).1.reconnectTimeout = false ∧
      (disconnectAction s).1.shouldReconnect = false ∧
      (s.wsGen.isSome = true →
        (disconnectAction s).2 = [Output.closeRequest 1000]) ∧
      (s.wsGen = none → (disconnectAction s).2 = []) ∧
      ((disconnectAction s).1.wsGen = none ∨
        (disconnectAction s).1.wsReady ≠ ReadyState.connecting) ∧
      connectionState (disconnectAction s).1 ≠ "connecting") ∧
    (∀ (o : ResolvedOptions) (s : ClientState) (evs : List Ev),
      s.shouldReconnect = false → s.reconnectTimeout = false →
      (s.wsGen = none ∨ s.wsReady ≠ ReadyState.connecting) →
      Ev.connect ∉ evs →
      connectionState (run o s evs).1 ≠ "connecting") := by
  constructor
  · intro s
    rcases hw : s.wsGen with _ | g
    · refine ⟨?_, ?_, ?_, ?_, ?_, ?_, ?_⟩ <;>
        simp [disconnectAction, cleanup, hw, connectionState]
    · have hnc : (disconnectAction s).1.wsGen = none ∨
          (disconnectAction s).1.wsReady ≠ ReadyState.connecting := by
        refine Or.inr ?_
        simp [disconnectAction, cleanup, hw]
        split_ifs <;> simp
      refine ⟨?_, ?_, ?_, ?_, ?_, hnc, connectionState_ne_connecting _ hnc⟩ <;>
        simp [disconnectAction, cleanup, hw]
  · intro o s evs h1 h2 h3 hevs
    exact connectionState_ne_connecting _ (noConnect_run o s evs h1 h2 h3 hevs).2.2

/-- C5, witness: disconnect from a connected channel, then a late
abnormal close and a timer event — the channel never reenters
`connecting`. -/
theorem C5_witness :
    connectionState (run defaultOptions
      (disconnectAction
        (run defaultOptions (initClient none) [Ev.connect, Ev.wsOpen 0]).1).1
      [Ev.wsClose 0 1006, Ev.reconnectTimer]).1 ≠ "connecting" :=
  (C5_disconnect).2 defaultOptions
    (disconnectAction
      (run defaultOptions (initClient none) [Ev.connect, Ev.wsOpen 0]).1).1
    [Ev.wsClose 0 1006, Ev.reconnectTimer]
    (by decide) (by decide) (by decide) (by decide)

/-- One step with the no-auto-reconnect flag set and no reconnect timer
pending: every event — explicit `connect()` included — preserves both,
and no reconnect attempt is announced. -/
theorem noReconnect_step (o : ResolvedOptions) (s : ClientState) (e : Ev)
    (h1 : s.shouldReconnect = false) (h2 : s.reconnectTimeout = false) :
    (step o s e).1.shouldReconnect = false ∧
    (step o s e).1.reconnectTimeout = false ∧
    (step o s e).2.countP Output.isReconnectingOut = 0 := by
  cases e with
  | connect =>
      by_cases hop : wsIsOpen s ∨ s.isConnecting = true <;>
        simp [step, connectAction, hop, h1, h2, Output.isReconnectingOut]
  | disconnect =>
      rcases hw : s.wsGen with _ | g <;>
        simp [step, disconnectAction, cleanup, hw, h1, Output.isReconnectingOut]
  | updateFilters f =>
      refine ⟨?_, ?_, ?_⟩ <;>
        simp [step, updateFiltersAction, h1, h2, sendAction_no_reconnecting]
  | wsOpen g =>
      by_cases hg : g < s.nextGen
      · by_cases hw : s.wsGen = some g <;>
          simp [step, onOpen, hg, hw, h1, h2, Output.isReconnectingOut]
      · simp [step, hg, h1, h2]
  | wsClose g code =>
      by_cases hg : g < s.nextGen
      · by_cases hw : s.wsGen = some g
        all_goals by_cases hcode : code ≠ 1000
        all_goals
          simp [step, onClose, cleanup, hg, hw, hcode, h1,
            Output.isReconnectingOut]
      · simp [step, hg, h1, h2]
  | wsError g =>
      by_cases hg : g < s.nextGen <;>
        simp [step, onError, hg, h1, h2, Output.isReconnectingOut]
  | wsMessage g raw =>
      by_cases hg : g < s.nextGen
      · cases raw with
        | none => simp [step, onMessage, hg, h1, h2, Output.isReconnectingOut]
        | some m =>
            simp [step, onMessage, hg, h1, h2, handleMessage_no_reconnecting]
      · simp [step, hg, h1, h2]
  | reconnectTimer => simp [step, onReconnectTimer, h2, h1]
  | pingTimer t =>
      refine ⟨?_, ?_, ?_⟩ <;>
        · simp only [step, onPingTimer]
          split_ifs <;> simp [h1, h2, sendAction_no_reconnecting]

/-- C9: once `disconnect()` has run, the no-auto-reconnect flag is never
reset for the remaining lifetime of the instance: across any subsequent
event sequence — explicit `connect()` calls, successful opens and
abnormal closures included — the flag stays cleared, no reconnect timer
is ever armed, and no reconnect attempt is ever announced. -/
theorem C9_stickyDisconnect :
    (∀ s : ClientState,
      (disconnectAction s).1.shouldReconnect = false ∧
      (disconnectAction s).1.reconnectTimeout = false) ∧
    (∀ (o : ResolvedOptions) (s : ClientState) (evs : List Ev),
      s.shouldReconnect = false → s.reconnectTimeout = false →
      (run o s evs).1.shouldReconnect = false ∧
      (run o s evs).1.reconnectTimeout = false ∧
      (run o s evs).2.countP Output.isReconnectingOut = 0) := by
  constructor
  · intro s
    rcases hw : s.wsGen with _ | g <;>
      simp [disconnectAction, cleanup, hw]
  · intro o s evs h1 h2
    induction evs generalizing s with
    | nil => exact ⟨h1, h2, by simp [run]⟩
    | cons e es ih =>
        have hstep := noReconnect_step o s e h1 h2
        have ihh := ih (step o s e).1 hstep.1 hstep.2.1
        refine ⟨?_, ?_, ?_⟩ <;>
          simp [run, List.countP_append, hstep.2.2, ihh.1, ihh.2.1, ihh.2.2]

/-- C9, witness: disconnect, then an explicit successful reconnect
followed by an abnormal closure — no automatic reconnect is announced. -/
theorem C9_witness :
    (run defaultOptions
      (disconnectAction
        (run defaultOptions (initClient none) [Ev.connect, Ev.wsOpen 0]).1).1
      [Ev.connect, Ev.wsOpen 1, Ev.wsClose 1 1006]).1.shouldReconnect = false ∧
    (run defaultOptions
      (disconnectAction
        (run defaultOptions (initClient none) [Ev.connect, Ev.wsOpen 0]).1).1
      [Ev.connect, Ev.wsOpen 1, Ev.wsClose 1 1006]).1.reconnectTimeout = false ∧
    (run defaultOptions
      (disconnectAction
        (run defaultOptions (initClient none) [Ev.connect, Ev.wsOpen 0]).1).1
      [Ev.connect, Ev.wsOpen 1, Ev.wsClose 1 1006]).2.countP
        Output.isReconnectingOut = 0 :=
  (C9_stickyDisconnect).2 defaultOptions
    (disconnectAction
      (run defaultOptions (initClient none) [Ev.connect, Ev.wsOpen 0]).1).1
    [Ev.connect, Ev.wsOpen 1, Ev.wsClose 1 1006]
    (by decide) (by decide)

/-- A concrete filter set. -/
def f1 : WebSocketFilters :=
  { message_types := some ["cost_update"], account_ids := none }

/-- updateFilters while disconnected, then a connect and a successful
open. -/
def c2trace : List Ev := [Ev.updateFilters f1, Ev.connect, Ev.wsOpen 0]

/-- C2, counterexample: `updateFilters` while disconnected, followed by a
successful transport open, produces zero outbound `subscribe` frames —
the open is not followed by any subscribe frame, contrary to the claim
(the channel does end up `connected`, so the open did succeed). -/
theorem C2_counterexample :
    (run defaultOptions (initClient none) c2trace).2.countP
        Output.isSubscribeOut = 0 ∧
    connectionState (run defaultOptions (initClient none) c2trace).1
      = "connected" := by
  decide

/-- C2, amended: `updateFilters` called while the transport is not open
sends no frame (it reports a local not-connected error instead) and
replaces the stored FilterSet in full; no `subscribe` frame is sent after
the next successful open (the open handler emits only the `connected`
notification) — instead the next `connect()` carries the latest stored
filters in the connection URL. -/
theorem C2_amended :
    (∀ (s : ClientState) (f : WebSocketFilters), ¬ wsIsOpen s →
      updateFiltersAction s f =
        ({ s with filters := some f },
         [Output.emit EmitEvent.errorNotConnected])) ∧
    (∀ (o : ResolvedOptions) (s : ClientState),
      ¬ wsIsOpen s → s.isConnecting = false →
      (connectAction o s).2 = [Output.openTransport o.token s.filters]) ∧
    (∀ (s : ClientState) (g : Nat),
      (onOpen s g).2 = [Output.emit EmitEvent.connected]) ∧
    (run defaultOptions (initClient none) c2trace).2 =
      [Output.emit EmitEvent.errorNotConnected,
       Output.openTransport "tok" (some f1),
       Output.emit EmitEvent.connected] := by
  refine ⟨?_, ?_, ?_, by decide⟩
  · intro s f hop
    have hop2 : ¬ wsIsOpen { s with filters := some f } := by
      simpa [wsIsOpen] using hop
    simp [updateFiltersAction, sendAction, hop2]
  · intro o s hop hic
    simp [connectAction, hop, hic]
  · intro s g
    simp [onOpen]

/-- C2, witness: the amended theorem applied to the freshly constructed,
disconnected client. -/
theorem C2_witness :
    updateFiltersAction (initClient none) f1 =
      ({ initClient none with filters := some f1 },
       [Output.emit EmitEvent.errorNotConnected]) :=
  (C2_amended).1 (initClient none) f1 (by decide)

/-- Connect, open, abnormal close, reconnect onto a fresh transport
(generation 1), which opens successfully. -/
def c8trace : List Ev :=
  [Ev.connect, Ev.wsOpen 0, Ev.wsClose 0 1006, Ev.reconnectTimer, Ev.wsOpen 1]

/-- C8: the handlers never check the identity of the transport that fired
them, so a late close callback from the discarded transport generation 0,
arriving while the channel is healthily connected on generation 1, stops
the heartbeat, arms a reconnect timer, and emits caller-visible
`disconnected` and `reconnecting` notifications — the channel state,
timers and notifications are all altered, contradicting the claim. -/
theorem C8_staleCallback :
    ((run defaultOptions (initClient none) c8trace).1.pingInterval = true ∧
     (run defaultOptions (initClient none) c8trace).1.wsGen = some 1 ∧
     connectionState (run defaultOptions (initClient none) c8trace).1
       = "connected" ∧
     (run defaultOptions (initClient none) c8trace).1.reconnectTimeout
       = false) ∧
    (step defaultOptions (run defaultOptions (initClient none) c8trace).1
        (Ev.wsClose 0 1006)).1.pingInterval = false ∧
    (step defaultOptions (run defaultOptions (initClient none) c8trace).1
        (Ev.wsClose 0 1006)).1.reconnectTimeout = true ∧
    Output.emit (EmitEvent.disconnected 1006) ∈
      (step defaultOptions (run defaultOptions (initClient none) c8trace).1
        (Ev.wsClose 0 1006)).2 ∧
    (step defaultOptions (run defaultOptions (initClient none) c8trace).1
        (Ev.wsClose 0 1006)).2.countP Output.isReconnectingOut = 1 := by
  decide

/-- Options with the retry cap explicitly set to `0`. -/
def zeroCapOptions : ResolvedOptions := mkOptions "tok" (some 0) none

/-- The state at the start of each reconnect cycle under an uncapped
budget: connecting on the latest transport generation `g` after `c`
consecutive failures, auto-reconnect still enabled, no timer pending. -/
def cycleInv (g c : Nat) (s : ClientState) : Prop :=
  s.wsGen = some g ∧ s.wsReady = ReadyState.connecting ∧ s.nextGen = g + 1 ∧
  s.isConnecting = true ∧ s.shouldReconnect = true ∧
  s.reconnectTimeout = false ∧ s.reconnectCount = c

instance (g c : Nat) (s : ClientState) : Decidable (cycleInv g c s) := by
  unfold cycleInv
  infer_instance

/-- `n` consecutive failure cycles: the pending connection attempt on
transport `g` fails abnormally, the backoff timer fires and opens the
next transport, and so on. -/
def unboundedTrace : Nat → Nat → List Ev
  | 0, _ => []
  | n + 1, g =>
    Ev.wsClose g 1006 :: Ev.reconnectTimer :: unboundedTrace n (g + 1)

/-- An abnormal closure of the pending transport under an uncapped
budget: the handler schedules the next attempt regardless of how many
attempts have already failed. -/
theorem wsClose_cycle (o : ResolvedOptions) (g c : Nat) (s : ClientState)
    (hz : o.reconnectAttempts = 0)
    (hwg : s.wsGen = some g) (hng : s.nextGen = g + 1)
    (hsr : s.shouldReconnect = true) (hrc : s.reconnectCount = c) :
    step o s (Ev.wsClose g 1006) =
      ({ s with wsReady := ReadyState.closed, isConnecting := false,
                pingInterval := false, reconnectTimeout := true,
                reconnectCount := c + 1 },
       [Output.emit (EmitEvent.disconnected 1006),
        Output.emit (EmitEvent.reconnecting (c + 1) 0
          (o.reconnectDelay * (3 / 2 : ℚ) ^ c))]) := by
  obtain ⟨wg, wr, ng, rc, pi, rt, ic, sr, fl⟩ := s
  simp only at hwg hng hsr hrc
  subst hwg hng hsr hrc
  simp +decide [step, onClose, cleanup, scheduleReconnect, hz]

/-- The backoff timer firing after such a closure: it opens the next
transport generation. -/
theorem reconnectTimer_cycle (o : ResolvedOptions) (g : Nat) (s : ClientState)
    (hwr : s.wsReady = ReadyState.closed) (hic : s.isConnecting = false)
    (hrt : s.reconnectTimeout = true) (hng : s.nextGen = g + 1) :
    step o s Ev.reconnectTimer =
      ({ s with wsGen := some (g + 1), wsReady := ReadyState.connecting,
                nextGen := g + 2, isConnecting := true,
                reconnectTimeout := false },
       [Output.openTransport o.token s.filters]) := by
  obtain ⟨wg, wr, ng, rc, pi, rt, ic, sr, fl⟩ := s
  simp only at hwr hic hrt hng
  subst hwr hic hrt hng
  simp +decide [step, onReconnectTimer, connectAction, wsIsOpen]

/-- C10: with `reconnectAttempts` explicitly `0` the truthiness guard
disables the retry cap — `scheduleReconnect` schedules an attempt for
any counter value whenever auto-reconnect is enabled, never emitting the
reconnect-exhausted signal on account of the counter — and an arbitrary
number `n` of consecutive abnormal-closure cycles yields `n` scheduled
attempts and zero reconnect-exhausted signals. -/
theorem C10_zeroCap :
    (∀ (o : ResolvedOptions) (s : ClientState), o.reconnectAttempts = 0 →
      s.shouldReconnect = true →
      scheduleReconnect o s =
        ({ s with reconnectCount := s.reconnectCount + 1,
                  reconnectTimeout := true },
         [Output.emit (EmitEvent.reconnecting (s.reconnectCount + 1) 0
            (o.reconnectDelay * (3 / 2 : ℚ) ^ s.reconnectCount))])) ∧
    (∀ (o : ResolvedOptions) (n g c : Nat) (s : ClientState),
      o.reconnectAttempts = 0 → cycleInv g c s →
      (run o s (unboundedTrace n g)).2.countP Output.isReconnectFailedOut
        = 0 ∧
      (run o s (unboundedTrace n g)).2.countP Output.isReconnectingOut = n ∧
      cycleInv (g + n) (c + n) (run o s (unboundedTrace n g)).1) := by
  constructor
  · intro o s hz hsr
    have hguard : ¬ (¬ s.shouldReconnect = true ∨
        (o.reconnectAttempts ≠ 0 ∧ s.reconnectCount ≥ o.reconnectAttempts)) := by
      rw [hz]
      simp [hsr]
    unfold scheduleReconnect
    rw [if_neg hguard, hz]
    simp
  · intro o n g c s hz hinv
    induction n generalizing g c s with
    | zero => simpa [run, unboundedTrace] using hinv
    | succ n ih =>
        obtain ⟨hwg, hwr, hng, hic, hsr, hrt, hrc⟩ := hinv
        have h1 := wsClose_cycle o g c s hz hwg hng hsr hrc
        have h2 := reconnectTimer_cycle o (g := g)
          ({ s with wsReady := ReadyState.closed, isConnecting := false,
                    pingInterval := false, reconnectTimeout := true,
                    reconnectCount := c + 1 })
          (by simp) (by simp) (by simp) (by simp [hng])
        have hinv2 : cycleInv (g + 1) (c + 1)
            ({ { s with wsReady := ReadyState.closed, isConnecting := false,
                        pingInterval := false, reconnectTimeout := true,
                        reconnectCount := c + 1 } with
               wsGen := some (g + 1), wsReady := ReadyState.connecting,
               nextGen := g + 2, isConnecting := true,
               reconnectTimeout := false }) := by
          exact ⟨rfl, rfl, rfl, rfl, by simp [hsr], rfl, rfl⟩
        have ihh := ih (g + 1) (c + 1) _ hinv2
        refine ⟨?_, ?_, ?_⟩
        · simp [unboundedTrace, run, h1, h2, List.countP_append,
            Output.isReconnectFailedOut, ihh.1]
        · simp [unboundedTrace, run, h1, h2, List.countP_append,
            Output.isReconnectingOut, ihh.2.1]
        · have harith1 : g + (n + 1) = (g + 1) + n := by omega
          have harith2 : c + (n + 1) = (c + 1) + n := by omega
          rw [harith1, harith2]
          simpa [unboundedTrace, run, h1, h2] using ihh.2.2

/-- C10, witness: two uncapped failure cycles from the first connection
attempt of a client constructed with `reconnectAttempts: 0`. -/
theorem C10_witness :
    (run zeroCapOptions (connectAction zeroCapOptions (initClient none)).1
        (unboundedTrace 2 0)).2.countP Output.isReconnectFailedOut = 0 ∧
    (run zeroCapOptions (connectAction zeroCapOptions (initClient none)).1
        (unboundedTrace 2 0)).2.countP Output.isReconnectingOut = 2 := by
  have h := (C10_zeroCap).2 zeroCapOptions 2 0 0
    (connectAction zeroCapOptions (initClient none)).1 rfl (by decide)
  exact ⟨h.1, h.2.1⟩

end AwsCostSentinel
